import Mathlib

/-!
Shallow embedding of cryptography/x509/general_name.py: the eight GeneralName
variant constructors, their validation and canonical-encoding logic, and the
numeric tag table.  External collaborators (the idna codec, the mail-address
parser parseaddr, and urllib's urlparse) are passed in as function parameters;
idna.encode / idna.decode and the text codecs are modelled as Option-valued
functions, with none standing for a raised codec error.
-/

set_option autoImplicit false

deriving instance DecidableEq for Except

namespace X509

/-- Byte strings are modelled as lists of byte values. -/
abbrev Bytes := List Nat

/-- Python text.startswith, on code points. -/
def strStartsWith (pre s : String) : Bool :=
  pre.data.isPrefixOf s.data

/-- Python text slicing value[n:], on code points. -/
def strDrop (s : String) (n : Nat) : String :=
  String.mk (s.data.drop n)

/-- Python text slicing value[:n], on code points. -/
def strTake (s : String) (n : Nat) : String :=
  String.mk (s.data.take n)

/-- Splitting a character list at every occurrence of a separator character. -/
def splitOnChar (sep : Char) : List Char → List (List Char)
  | [] => [[]]
  | c :: cs =>
    match splitOnChar sep cs with
    | [] => [[c]]
    | h :: t => if c = sep then [] :: h :: t else (c :: h) :: t

/-- ASCII bytes of a string whose characters are all ASCII; models a Python
text-to-bytes encode that is known to succeed. -/
def asciiBytes (s : String) : Bytes :=
  s.data.map Char.toNat

/-- Models Python text.encode with the ascii codec: succeeds exactly when
every character is below 128, and raises (none) otherwise. -/
def asciiEncode (s : String) : Option Bytes :=
  if s.data.all (fun c => c.toNat < 128) then some (asciiBytes s) else none

/-- Models Python bytes.decode with the ascii codec: succeeds exactly when
every byte is below 128. -/
def asciiDecode (b : Bytes) : Option String :=
  if b.all (fun n => n < 128) then some (String.mk (b.map Char.ofNat)) else none

/-- External distinguished-name type (cryptography.x509.name.Name); its
content is opaque to this module. -/
structure Name where
  raw : Nat
deriving DecidableEq

/-- External object-identifier type (cryptography.x509.oid.ObjectIdentifier);
its content is opaque to this module. -/
structure ObjectIdentifier where
  dotted : String
deriving DecidableEq

/-- The four ipaddress kinds accepted by IPAddress. -/
inductive IPKind where
  | v4Address
  | v6Address
  | v4Network
  | v6Network
deriving DecidableEq

/-- External ipaddress value: one of the four kinds, content opaque. -/
structure IPValue where
  kind : IPKind
  raw : Nat
deriving DecidableEq

/-- Kinds of Python runtime values a constructor may receive; models the
isinstance checks performed by the constructors. -/
inductive PyVal where
  | str (s : String)
  | bytes (b : Bytes)
  | name (n : Name)
  | oid (o : ObjectIdentifier)
  | ip (a : IPValue)
  | intVal (i : Int)
  | noneVal
deriving DecidableEq

/-- Failure outcomes of the constructors: a TypeError from an isinstance
check, the explicit ValueError raised by RFC822Name, and a codec failure
(UnicodeEncodeError, UnicodeDecodeError or an idna error). -/
inductive GNError where
  | invalidType
  | invalidValue
  | encodingError
deriving DecidableEq

/-- The numeric tag table _GENERAL_NAMES of the module, verbatim. -/
def _GENERAL_NAMES : List (Nat × String) :=
  [(0, "otherName"),
   (1, "rfc822Name"),
   (2, "dNSName"),
   (3, "x400Address"),
   (4, "directoryName"),
   (5, "ediPartyName"),
   (6, "uniformResourceIdentifier"),
   (7, "iPAddress"),
   (8, "registeredID")]

/-- Lookup in the tag table, as a Python dict access _GENERAL_NAMES.get(tag). -/
def generalNameFor (tag : Nat) : Option String :=
  (_GENERAL_NAMES.find? (fun p => p.1 == tag)).map Prod.snd

/-- Python text.split with a one-character separator. -/
def pySplit (sep : Char) (s : String) : List String :=
  (splitOnChar sep s.data).map String.mk

/-- Names of the GeneralName classes actually implemented by the module. -/
def implementedVariantNames : List String :=
  ["otherName", "rfc822Name", "dNSName", "directoryName",
   "uniformResourceIdentifier", "iPAddress", "registeredID"]

/-- RFC822Name: the logical text value together with the derived
ASCII-encoded form stored in the _encoded slot. -/
structure RFC822Name where
  value : String
  encoded : Bytes
deriving DecidableEq

/-- RFC822Name construction, parameterised by the external mail-address
parser (email.utils.parseaddr, returning a display-name and address pair)
and the external idna.encode. -/
def RFC822Name.make (parseaddr : String → String × String)
    (idnaEncode : String → Option Bytes) : PyVal → Except GNError RFC822Name
  | .str value =>
    let na := parseaddr value
    if na.1 ≠ "" ∨ na.2 = "" then
      .error .invalidValue
    else
      match pySplit '@' na.2 with
      | [_] =>
        match asciiEncode na.2 with
        | some b => .ok ⟨value, b⟩
        | none => .error .encodingError
      | lpart :: dpart :: _ =>
        match asciiEncode lpart, idnaEncode dpart with
        | some lb, some db => .ok ⟨value, lb ++ asciiBytes "@" ++ db⟩
        | _, _ => .error .encodingError
      | [] => .error .encodingError
  | _ => .error .invalidType

/-- Bool equality used by RFC822Name, defined on the logical text value. -/
def RFC822Name.beq (a b : RFC822Name) : Bool :=
  a.value == b.value

/-- Helper _idna_encode of the module: when the value starts with a leading
"*." or ".", strip that marker, idna-encode only the remainder and prepend
the ASCII bytes of the marker; otherwise idna-encode the whole value. -/
def _idna_encode (idnaEncode : String → Option Bytes) (value : String) : Option Bytes :=
  if strStartsWith "*." value then
    (idnaEncode (strDrop value 2)).map (fun b => asciiBytes "*." ++ b)
  else if strStartsWith "." value then
    (idnaEncode (strDrop value 1)).map (fun b => asciiBytes "." ++ b)
  else
    idnaEncode value

/-- DNSName: the canonical byte-string form stored in _bytes_value. -/
structure DNSName where
  bytes_value : Bytes
deriving DecidableEq

/-- DNSName construction.  The Bool in the result records whether the
deprecation warning for legacy text input was emitted. -/
def DNSName.make (idnaEncode : String → Option Bytes) :
    PyVal → Except GNError (DNSName × Bool)
  | .str s =>
    match asciiEncode s with
    | some b => .ok (⟨b⟩, true)
    | none =>
      match _idna_encode idnaEncode s with
      | some b => .ok (⟨b⟩, true)
      | none => .error .encodingError
  | .bytes b => .ok (⟨b⟩, false)
  | _ => .error .invalidType

/-- Deprecated DNSName.value accessor: empty bytes give the empty text; a
value led by "*." has the marker removed, the remainder idna-decoded and the
marker re-prepended; otherwise the whole byte value is idna-decoded and a
leading "." (which idna strips) is re-added afterwards. -/
def DNSName.value (idnaDecode : Bytes → Option String) (n : DNSName) : Option String :=
  let data := n.bytes_value
  if data = [] then
    some ""
  else if (asciiBytes "*.").isPrefixOf data then
    (idnaDecode (data.drop 2)).map (fun s => "*." ++ s)
  else
    (idnaDecode data).map
      (fun s => if (asciiBytes ".").isPrefixOf data then "." ++ s else s)

/-- Bool equality used by DNSName, defined on the canonical byte form. -/
def DNSName.beq (a b : DNSName) : Bool :=
  a.bytes_value == b.bytes_value

/-- Result of urllib urlparse as consumed by the constructor: the six
components plus the derived hostname and port accessors. -/
structure ParsedURI where
  scheme : String
  hostname : Option String
  port : Option Nat
  path : String
  params : String
  query : String
  fragment : String
deriving DecidableEq

/-- Netloc reconstruction of the constructor: empty when the hostname is
falsy; otherwise the idna-encoded host, with ":port" appended before the
ascii decode exactly when the port is truthy (present and nonzero). -/
def uriNetloc (idnaEncode : String → Option Bytes) (p : ParsedURI) : Option String :=
  match p.hostname with
  | none => some ""
  | some h =>
    if h = "" then some ""
    else
      match p.port with
      | some pt =>
        if pt ≠ 0 then
          (idnaEncode h).bind (fun hb => asciiDecode (hb ++ asciiBytes (":" ++ toString pt)))
        else
          (idnaEncode h).bind asciiDecode
      | none => (idnaEncode h).bind asciiDecode

/-- Models urllib urlunparse (via urlunsplit) on string components. -/
def urlunparse (scheme netloc url0 params query fragment : String) : String :=
  let url1 := if params ≠ "" then url0 ++ ";" ++ params else url0
  let url2 :=
    if netloc ≠ "" ∨ (url1 ≠ "" ∧ strTake url1 2 = "//") then
      "//" ++ netloc ++ (if url1 ≠ "" ∧ strTake url1 1 ≠ "/" then "/" ++ url1 else url1)
    else url1
  let url3 := if scheme ≠ "" then scheme ++ ":" ++ url2 else url2
  let url4 := if query ≠ "" then url3 ++ "?" ++ query else url3
  if fragment ≠ "" then url4 ++ "#" ++ fragment else url4

/-- UniformResourceIdentifier: the logical text value together with the
reassembled ASCII-encoded URI stored in the _encoded slot. -/
structure UniformResourceIdentifier where
  value : String
  encoded : Bytes
deriving DecidableEq

/-- UniformResourceIdentifier construction, parameterised by the external
urlparse and idna.encode. -/
def UniformResourceIdentifier.make (urlparse : String → ParsedURI)
    (idnaEncode : String → Option Bytes) : PyVal → Except GNError UniformResourceIdentifier
  | .str value =>
    let p := urlparse value
    match uriNetloc idnaEncode p with
    | none => .error .encodingError
    | some netloc =>
      match asciiEncode (urlunparse p.scheme netloc p.path p.params p.query p.fragment) with
      | some uri => .ok ⟨value, uri⟩
      | none => .error .encodingError
  | _ => .error .invalidType

/-- Bool equality used by UniformResourceIdentifier, defined on the logical
text value. -/
def UniformResourceIdentifier.beq (a b : UniformResourceIdentifier) : Bool :=
  a.value == b.value

/-- DirectoryName holds an external distinguished-name value. -/
structure DirectoryName where
  value : Name
deriving DecidableEq

/-- DirectoryName construction: an isinstance check against Name only. -/
def DirectoryName.make : PyVal → Except GNError DirectoryName
  | .name n => .ok ⟨n⟩
  | _ => .error .invalidType

/-- RegisteredID holds an external object-identifier value. -/
structure RegisteredID where
  value : ObjectIdentifier
deriving DecidableEq

/-- RegisteredID construction: an isinstance check against ObjectIdentifier
only. -/
def RegisteredID.make : PyVal → Except GNError RegisteredID
  | .oid o => .ok ⟨o⟩
  | _ => .error .invalidType

/-- IPAddress holds an external ipaddress value of one of the four kinds. -/
structure IPAddress where
  value : IPValue
deriving DecidableEq

/-- IPAddress construction: an isinstance check against the four ipaddress
classes only. -/
def IPAddress.make : PyVal → Except GNError IPAddress
  | .ip a => .ok ⟨a⟩
  | _ => .error .invalidType

/-- OtherName holds an external object identifier and an opaque byte payload. -/
structure OtherName where
  type_id : ObjectIdentifier
  value : Bytes
deriving DecidableEq

/-- OtherName construction: the type id must be an ObjectIdentifier and the
payload must be bytes; the payload is stored untransformed. -/
def OtherName.make : PyVal → PyVal → Except GNError OtherName
  | .oid o, .bytes b => .ok ⟨o, b⟩
  | .oid _, _ => .error .invalidType
  | _, _ => .error .invalidType

/-- Bool equality used by OtherName, on the type id and the payload. -/
def OtherName.beq (a b : OtherName) : Bool :=
  a.type_id == b.type_id && a.value == b.value

/-- Concrete stand-in for idna.encode that agrees with it on the inputs used
by the witnesses below: "café.com" encodes to punycode "xn--caf-dma.com" and
plain ASCII domains encode to their ASCII bytes. -/
def idnaEncodeStub (s : String) : Option Bytes :=
  if s = "café.com" then some (asciiBytes "xn--caf-dma.com") else asciiEncode s

/-- Concrete stand-in for idna.decode that agrees with it on the inputs used
by the witnesses below. -/
def idnaDecodeStub (b : Bytes) : Option String :=
  if b = asciiBytes "xn--caf-dma.com" then some "café.com" else asciiDecode b

/-- Concrete stand-in for email.utils.parseaddr that agrees with it on the
inputs used by the witnesses below: a display name in angle-bracket form is
separated from the address, and a plain address parses to itself. -/
def parseaddrStub (s : String) : String × String :=
  if s = "Name <user@example.com>" then ("Name", "user@example.com")
  else ("", s)

/-- Concrete stand-in for urlparse that agrees with it on the single input
"https://café.com:8443/path". -/
def urlparseStub8443 : String → ParsedURI :=
  fun _ => ⟨"https", some "café.com", some 8443, "/path", "", "", ""⟩

/-- Concrete stand-in for urlparse that agrees with it on the single input
"https://café.com:0/path", whose parsed port is the integer 0. -/
def urlparseStub0 : String → ParsedURI :=
  fun _ => ⟨"https", some "café.com", some 0, "/path", "", "", ""⟩

/-- A byte value led by the wildcard marker is decoded by stripping the
marker, decoding the remainder and re-prepending the marker. -/
lemma dnsValue_wildcard (dec : Bytes → Option String) (rest : Bytes) (s : String)
    (h : dec rest = some s) :
    DNSName.value dec ⟨asciiBytes "*." ++ rest⟩ = some ("*." ++ s) := by
  have e : asciiBytes "*." = [42, 46] := rfl
  rw [e]
  simp [DNSName.value, List.isPrefixOf, h]

/-- A byte value led by a period, on a decoder that ignores a leading period
(as the source notes idna does), is decoded to the decoded remainder with
the period re-prepended. -/
lemma dnsValue_dot (dec : Bytes → Option String) (rest : Bytes) (s : String)
    (hstrip : dec (asciiBytes "." ++ rest) = dec rest)
    (h : dec rest = some s) :
    DNSName.value dec ⟨asciiBytes "." ++ rest⟩ = some ("." ++ s) := by
  have e : asciiBytes "." = [46] := rfl
  rw [e] at hstrip ⊢
  simp only [List.singleton_append] at hstrip
  simp [DNSName.value, List.isPrefixOf, hstrip, h]

/-- Legacy all-ASCII text input to DNSName is encoded directly to its ASCII
bytes. -/
lemma dnsMake_str_ascii (enc : String → Option Bytes) (s : String) (b : Bytes)
    (h : asciiEncode s = some b) :
    DNSName.make enc (.str s) = .ok (⟨b⟩, true) := by
  simp [DNSName.make, h]

/-- Legacy non-ASCII text input starting with "*." stores the ASCII marker
bytes followed by the idna encoding of the remainder. -/
lemma dnsMake_str_wildcard (enc : String → Option Bytes) (s : String) (b : Bytes)
    (ha : asciiEncode s = none) (hw : strStartsWith "*." s = true)
    (hb : enc (strDrop s 2) = some b) :
    DNSName.make enc (.str s) = .ok (⟨asciiBytes "*." ++ b⟩, true) := by
  simp [DNSName.make, ha, _idna_encode, hw, hb]

/-- Legacy non-ASCII text input starting with "." (and not "*.") stores the
ASCII marker byte followed by the idna encoding of the remainder. -/
lemma dnsMake_str_dot (enc : String → Option Bytes) (s : String) (b : Bytes)
    (ha : asciiEncode s = none) (hw : strStartsWith "*." s = false)
    (hd : strStartsWith "." s = true) (hb : enc (strDrop s 1) = some b) :
    DNSName.make enc (.str s) = .ok (⟨asciiBytes "." ++ b⟩, true) := by
  simp [DNSName.make, ha, _idna_encode, hw, hd, hb]

/-- C1: reading the legacy DNSName.value accessor on a byte value led by
"*." or "." strips the marker, idna-decodes the remainder (for "." under the
idna behaviour, noted in the source, of ignoring a leading period) and
re-prepends the marker; in particular b"*.xn--caf-dma.com" decodes to
"*.café.com", and constructing a DNSName from that text yields back exactly
the original bytes. -/
theorem c1_dns_value_decode_roundtrip :
    (∀ (dec : Bytes → Option String) (rest : Bytes) (s : String),
      dec rest = some s →
      DNSName.value dec ⟨asciiBytes "*." ++ rest⟩ = some ("*." ++ s)) ∧
    (∀ (dec : Bytes → Option String) (rest : Bytes) (s : String),
      dec (asciiBytes "." ++ rest) = dec rest →
      dec rest = some s →
      DNSName.value dec ⟨asciiBytes "." ++ rest⟩ = some ("." ++ s)) ∧
    (∀ (enc : String → Option Bytes) (dec : Bytes → Option String),
      dec (asciiBytes "xn--caf-dma.com") = some "café.com" →
      enc "café.com" = some (asciiBytes "xn--caf-dma.com") →
      DNSName.value dec ⟨asciiBytes "*.xn--caf-dma.com"⟩ = some "*.café.com" ∧
      DNSName.make enc (.str "*.café.com") = .ok (⟨asciiBytes "*.xn--caf-dma.com"⟩, true)) := by
  refine ⟨dnsValue_wildcard, dnsValue_dot, fun enc dec hdec henc => ⟨?v, ?m⟩⟩
  case v =>
    have h := dnsValue_wildcard dec (asciiBytes "xn--caf-dma.com") "café.com" hdec
    exact h
  case m =>
    have h := dnsMake_str_wildcard enc "*.café.com" (asciiBytes "xn--caf-dma.com")
      rfl rfl (by rw [show strDrop "*.café.com" 2 = "café.com" from rfl, henc])
    exact h

/-- C1 witness: the accessor and the round trip evaluated on the concrete
codec stand-in. -/
theorem c1_witness :
    DNSName.value idnaDecodeStub ⟨asciiBytes "*.xn--caf-dma.com"⟩ = some "*.café.com" ∧
    DNSName.make idnaEncodeStub (.str "*.café.com") =
      .ok (⟨asciiBytes "*.xn--caf-dma.com"⟩, true) :=
  c1_dns_value_decode_roundtrip.2.2 idnaEncodeStub idnaDecodeStub rfl rfl

/-- C2 counterexample: the table maps the nine tags 0 through 8 to nine
distinct names, not eight; tag 3 maps to "x400Address", which is not the
name of any implemented variant class. -/
theorem c2_counterexample :
    generalNameFor 3 = some "x400Address" ∧
    "x400Address" ∉ implementedVariantNames ∧
    (_GENERAL_NAMES.map Prod.snd).length = 9 := by
  refine ⟨rfl, by decide, rfl⟩

/-- C2 (amended): the tag table is total over tags 0 through 8, no name is
reachable from two different tags, and tag 4 maps to directoryName. -/
theorem c2_tag_table_total_injective :
    (∀ t, t < 9 → (generalNameFor t).isSome = true) ∧
    (∀ t1, t1 < 9 → ∀ t2, t2 < 9 → t1 ≠ t2 → generalNameFor t1 ≠ generalNameFor t2) ∧
    generalNameFor 4 = some "directoryName" := by
  refine ⟨by decide, by decide, rfl⟩

/-- C2 witness: totality and injectivity of the table evaluated at concrete
tags. -/
theorem c2_witness :
    (generalNameFor 4).isSome = true ∧ generalNameFor 3 ≠ generalNameFor 5 :=
  ⟨c2_tag_table_total_injective.1 4 (by decide),
   c2_tag_table_total_injective.2.1 3 (by decide) 5 (by decide) (by decide)⟩

/-- C10: a DNSName built from the empty byte string yields the empty text
from the legacy accessor, for every decoder, so the decoder is never
consulted and the accessor cannot raise. -/
theorem c10_empty_bytes_value :
    ∀ dec : Bytes → Option String, DNSName.value dec ⟨[]⟩ = some "" :=
  fun _ => rfl

/-- C3: RFC822Name construction on text fails with the explicit ValueError
exactly when parseaddr yields a display name or an empty address; the empty
string (which parses to an empty address) is such a case; non-text input
fails with TypeError instead. -/
theorem c3_rfc822_invalid_value_iff :
    (∀ (pa : String → String × String) (enc : String → Option Bytes) (s : String),
      RFC822Name.make pa enc (.str s) = .error .invalidValue ↔
        ((pa s).1 ≠ "" ∨ (pa s).2 = "")) ∧
    (∀ (pa : String → String × String) (enc : String → Option Bytes),
      (pa "").2 = "" → RFC822Name.make pa enc (.str "") = .error .invalidValue) ∧
    (∀ (pa : String → String × String) (enc : String → Option Bytes) (v : PyVal),
      (∀ s, v ≠ .str s) → RFC822Name.make pa enc v = .error .invalidType) := by
  refine ⟨fun pa enc s => ?_, fun pa enc h => ?_, fun pa enc v hv => ?_⟩
  · simp only [RFC822Name.make]
    by_cases h : (pa s).1 ≠ "" ∨ (pa s).2 = ""
    · rw [if_pos h]
      simp [h]
    · rw [if_neg h]
      simp only [h, iff_false]
      intro hc
      split at hc
      · split at hc <;> simp_all
      · split at hc <;> simp_all
      · simp_all
  · simp [RFC822Name.make, h]
  · cases v <;> first | rfl | exact absurd rfl (hv _)

/-- C3 witness: a display-name input and the empty string are rejected with
the ValueError, and byte input is rejected with the TypeError. -/
theorem c3_witness :
    RFC822Name.make parseaddrStub idnaEncodeStub (.str "Name <user@example.com>") =
      .error .invalidValue ∧
    RFC822Name.make parseaddrStub idnaEncodeStub (.str "") = .error .invalidValue ∧
    RFC822Name.make parseaddrStub idnaEncodeStub (.bytes []) = .error .invalidType :=
  ⟨(c3_rfc822_invalid_value_iff.1 parseaddrStub idnaEncodeStub _).mpr (Or.inl (by decide)),
   c3_rfc822_invalid_value_iff.2.1 parseaddrStub idnaEncodeStub rfl,
   c3_rfc822_invalid_value_iff.2.2 parseaddrStub idnaEncodeStub _ (fun _ h => nomatch h)⟩

/-- C4: for accepted RFC822Name text, an address with no "@" stores its bare
ASCII encoding (or fails with an encoding error when not ASCII), and an
address with exactly one "@" stores ASCII local part, "@", and the idna
encoding of the domain, while the original text is kept as the value. -/
theorem c4_rfc822_encoded_form :
    (∀ (pa : String → String × String) (enc : String → Option Bytes) (s : String) (b : Bytes),
      (pa s).1 = "" → (pa s).2 ≠ "" → (pySplit '@' (pa s).2).length = 1 →
      asciiEncode (pa s).2 = some b →
      RFC822Name.make pa enc (.str s) = .ok ⟨s, b⟩) ∧
    (∀ (pa : String → String × String) (enc : String → Option Bytes) (s : String),
      (pa s).1 = "" → (pa s).2 ≠ "" → (pySplit '@' (pa s).2).length = 1 →
      asciiEncode (pa s).2 = none →
      RFC822Name.make pa enc (.str s) = .error .encodingError) ∧
    (∀ (pa : String → String × String) (enc : String → Option Bytes)
        (s lpart dpart : String) (lb db : Bytes),
      (pa s).1 = "" → (pa s).2 ≠ "" → pySplit '@' (pa s).2 = [lpart, dpart] →
      asciiEncode lpart = some lb → enc dpart = some db →
      RFC822Name.make pa enc (.str s) = .ok ⟨s, lb ++ asciiBytes "@" ++ db⟩) := by
  refine ⟨fun pa enc s b h1 h2 hl hb => ?_, fun pa enc s h1 h2 hl hb => ?_,
    fun pa enc s lpart dpart lb db h1 h2 hsp hlb hdb => ?_⟩
  · obtain ⟨x, hx⟩ := List.length_eq_one.mp hl
    simp [RFC822Name.make, if_neg, h1, h2, hx, hb]
  · obtain ⟨x, hx⟩ := List.length_eq_one.mp hl
    simp [RFC822Name.make, if_neg, h1, h2, hx, hb]
  · simp [RFC822Name.make, if_neg, h1, h2, hsp, hlb, hdb]

/-- C4 witness: a bare local label is stored as its ASCII bytes, and an
address with an internationalized domain is stored as
local, "@", punycode domain, with the text retained. -/
theorem c4_witness :
    RFC822Name.make parseaddrStub idnaEncodeStub (.str "root") =
      .ok ⟨"root", asciiBytes "root"⟩ ∧
    RFC822Name.make parseaddrStub idnaEncodeStub (.str "user@café.com") =
      .ok ⟨"user@café.com", asciiBytes "user" ++ asciiBytes "@" ++ asciiBytes "xn--caf-dma.com"⟩ :=
  ⟨c4_rfc822_encoded_form.1 parseaddrStub idnaEncodeStub "root" (asciiBytes "root")
      rfl (by decide) rfl rfl,
   c4_rfc822_encoded_form.2.2 parseaddrStub idnaEncodeStub "user@café.com" "user" "café.com"
      (asciiBytes "user") (asciiBytes "xn--caf-dma.com") rfl (by decide) rfl rfl rfl⟩

/-- C5: non-ASCII legacy text led by "*." or "." stores the ASCII marker
followed by the idna encoding of the remainder only; all-ASCII text stores
its ASCII bytes; byte input is stored verbatim; any other input kind fails
with the TypeError. -/
theorem c5_dnsname_construction :
    (∀ (enc : String → Option Bytes) (s : String) (b : Bytes),
      asciiEncode s = none → strStartsWith "*." s = true → enc (strDrop s 2) = some b →
      DNSName.make enc (.str s) = .ok (⟨asciiBytes "*." ++ b⟩, true)) ∧
    (∀ (enc : String → Option Bytes) (s : String) (b : Bytes),
      asciiEncode s = none → strStartsWith "*." s = false → strStartsWith "." s = true →
      enc (strDrop s 1) = some b →
      DNSName.make enc (.str s) = .ok (⟨asciiBytes "." ++ b⟩, true)) ∧
    (∀ (enc : String → Option Bytes) (s : String) (b : Bytes),
      asciiEncode s = some b → DNSName.make enc (.str s) = .ok (⟨b⟩, true)) ∧
    (∀ (enc : String → Option Bytes) (b : Bytes),
      DNSName.make enc (.bytes b) = .ok (⟨b⟩, false)) ∧
    (∀ (enc : String → Option Bytes) (v : PyVal),
      (∀ s, v ≠ .str s) → (∀ b, v ≠ .bytes b) →
      DNSName.make enc v = .error .invalidType) :=
  ⟨dnsMake_str_wildcard, dnsMake_str_dot, dnsMake_str_ascii, fun _ _ => rfl,
   fun enc v hs hb => by
    cases v <;> first | rfl | exact absurd rfl (hs _) | exact absurd rfl (hb _)⟩

/-- C5 witness: the wildcard, leading-dot, plain-ASCII, byte and wrong-kind
cases evaluated on the concrete codec stand-in. -/
theorem c5_witness :
    DNSName.make idnaEncodeStub (.str "*.café.com") =
      .ok (⟨asciiBytes "*." ++ asciiBytes "xn--caf-dma.com"⟩, true) ∧
    DNSName.make idnaEncodeStub (.str ".café.com") =
      .ok (⟨asciiBytes "." ++ asciiBytes "xn--caf-dma.com"⟩, true) ∧
    DNSName.make idnaEncodeStub (.str "example.com") =
      .ok (⟨asciiBytes "example.com"⟩, true) ∧
    DNSName.make idnaEncodeStub (.bytes (asciiBytes "example.com")) =
      .ok (⟨asciiBytes "example.com"⟩, false) ∧
    DNSName.make idnaEncodeStub .noneVal = .error .invalidType :=
  ⟨c5_dnsname_construction.1 idnaEncodeStub "*.café.com" (asciiBytes "xn--caf-dma.com")
      rfl rfl rfl,
   c5_dnsname_construction.2.1 idnaEncodeStub ".café.com" (asciiBytes "xn--caf-dma.com")
      rfl rfl rfl rfl,
   c5_dnsname_construction.2.2.1 idnaEncodeStub "example.com" (asciiBytes "example.com") rfl,
   c5_dnsname_construction.2.2.2.1 idnaEncodeStub (asciiBytes "example.com"),
   c5_dnsname_construction.2.2.2.2 idnaEncodeStub .noneVal
      (fun _ h => nomatch h) (fun _ h => nomatch h)⟩

/-- C7: two RFC822Name, DNSName or UniformResourceIdentifier values are
equal exactly when their logical values agree, regardless of the stored
encoded form. -/
theorem c7_equality_iff_logical_value :
    (∀ a b : RFC822Name, RFC822Name.beq a b = true ↔ a.value = b.value) ∧
    (∀ (v : String) (e1 e2 : Bytes), RFC822Name.beq ⟨v, e1⟩ ⟨v, e2⟩ = true) ∧
    (∀ a b : DNSName, DNSName.beq a b = true ↔ a.bytes_value = b.bytes_value) ∧
    (∀ a b : UniformResourceIdentifier,
      UniformResourceIdentifier.beq a b = true ↔ a.value = b.value) ∧
    (∀ (v : String) (e1 e2 : Bytes), UniformResourceIdentifier.beq ⟨v, e1⟩ ⟨v, e2⟩ = true) := by
  refine ⟨fun a b => ?_, fun v e1 e2 => ?_, fun a b => ?_, fun a b => ?_, fun v e1 e2 => ?_⟩ <;>
    simp [RFC822Name.beq, DNSName.beq, UniformResourceIdentifier.beq]

/-- C7 witness: equality holds across differently derived encoded forms and
is decided by the logical value. -/
theorem c7_witness :
    RFC822Name.beq ⟨"a@b", [0]⟩ ⟨"a@b", [1]⟩ = true ∧
    UniformResourceIdentifier.beq ⟨"https://x", [0]⟩ ⟨"https://x", [1]⟩ = true :=
  ⟨c7_equality_iff_logical_value.2.1 "a@b" [0] [1],
   c7_equality_iff_logical_value.2.2.2.2 "https://x" [0] [1]⟩

/-- C8: DirectoryName, RegisteredID and IPAddress accept exactly the
required external kind, store the value with no further content validation,
and fail with the TypeError on every other kind. -/
theorem c8_exact_type_constructors :
    (∀ n : Name, DirectoryName.make (.name n) = .ok ⟨n⟩) ∧
    (∀ v : PyVal, (∀ n, v ≠ .name n) → DirectoryName.make v = .error .invalidType) ∧
    (∀ o : ObjectIdentifier, RegisteredID.make (.oid o) = .ok ⟨o⟩) ∧
    (∀ v : PyVal, (∀ o, v ≠ .oid o) → RegisteredID.make v = .error .invalidType) ∧
    (∀ a : IPValue, IPAddress.make (.ip a) = .ok ⟨a⟩) ∧
    (∀ v : PyVal, (∀ a, v ≠ .ip a) → IPAddress.make v = .error .invalidType) := by
  refine ⟨fun n => rfl, fun v h => ?_, fun o => rfl, fun v h => ?_, fun a => rfl,
    fun v h => ?_⟩ <;>
    cases v <;> first | rfl | exact absurd rfl (h _)

/-- C8 witness: each constructor on a value of the required kind and on a
value of a wrong kind. -/
theorem c8_witness :
    DirectoryName.make (.name ⟨0⟩) = .ok ⟨⟨0⟩⟩ ∧
    DirectoryName.make (.str "cn=x") = .error .invalidType ∧
    RegisteredID.make (.oid ⟨"2.5.4.3"⟩) = .ok ⟨⟨"2.5.4.3"⟩⟩ ∧
    RegisteredID.make (.intVal 3) = .error .invalidType ∧
    IPAddress.make (.ip ⟨.v4Address, 0⟩) = .ok ⟨⟨.v4Address, 0⟩⟩ ∧
    IPAddress.make (.str "127.0.0.1") = .error .invalidType :=
  ⟨c8_exact_type_constructors.1 ⟨0⟩,
   c8_exact_type_constructors.2.1 _ (fun _ h => nomatch h),
   c8_exact_type_constructors.2.2.1 ⟨"2.5.4.3"⟩,
   c8_exact_type_constructors.2.2.2.1 _ (fun _ h => nomatch h),
   c8_exact_type_constructors.2.2.2.2.1 ⟨.v4Address, 0⟩,
   c8_exact_type_constructors.2.2.2.2.2 _ (fun _ h => nomatch h)⟩

/-- C9: OtherName stores the byte payload untransformed, rejects a non-oid
type id or a non-byte payload with the TypeError, and two values are equal
exactly when type id and payload both agree. -/
theorem c9_othername_payload_and_eq :
    (∀ (o : ObjectIdentifier) (b : Bytes), OtherName.make (.oid o) (.bytes b) = .ok ⟨o, b⟩) ∧
    (∀ t v : PyVal, (∀ o, t ≠ .oid o) → OtherName.make t v = .error .invalidType) ∧
    (∀ (o : ObjectIdentifier) (v : PyVal), (∀ b, v ≠ .bytes b) →
      OtherName.make (.oid o) v = .error .invalidType) ∧
    (∀ a b : OtherName, OtherName.beq a b = true ↔ a.type_id = b.type_id ∧ a.value = b.value) := by
  refine ⟨fun o b => rfl, fun t v h => ?_, fun o v h => ?_, fun a b => ?_⟩
  · cases t <;> first | exact absurd rfl (h _) | (cases v <;> rfl)
  · cases v <;> first | rfl | exact absurd rfl (h _)
  · simp [OtherName.beq, and_comm]

/-- Decoding the ASCII bytes of an all-ASCII string gives the string back. -/
lemma asciiDecode_asciiBytes (s : String)
    (h : s.data.all (fun c => c.toNat < 128) = true) :
    asciiDecode (asciiBytes s) = some s := by
  unfold asciiDecode asciiBytes
  rw [if_pos]
  · congr 1
    rw [List.map_map]
    have he : ∀ c ∈ s.data, (Char.ofNat ∘ Char.toNat) c = id c :=
      fun c _ => Char.ofNat_toNat c
    rw [List.map_congr_left he, List.map_id]
  · simpa [List.all_map, Function.comp] using h

/-- ASCII decoding distributes over byte concatenation. -/
lemma asciiDecode_append (b1 b2 : Bytes) (s1 s2 : String)
    (h1 : asciiDecode b1 = some s1) (h2 : asciiDecode b2 = some s2) :
    asciiDecode (b1 ++ b2) = some (s1 ++ s2) := by
  unfold asciiDecode at h1 h2 ⊢
  split at h1
  case isTrue a1 =>
    split at h2
    case isTrue a2 =>
      obtain rfl := Option.some.inj h1
      obtain rfl := Option.some.inj h2
      rw [if_pos]
      · rw [List.map_append]
        rfl
      · rw [List.all_append, a1, a2]
        rfl
    case isFalse => exact absurd h2 (by simp)
  case isFalse => exact absurd h1 (by simp)

/-- C9 witness: a stored payload returned verbatim, the two TypeError cases,
and equality on equal components. -/
theorem c9_witness :
    OtherName.make (.oid ⟨"1.2.3.4"⟩) (.bytes [0, 255]) = .ok ⟨⟨"1.2.3.4"⟩, [0, 255]⟩ ∧
    OtherName.make (.str "1.2.3.4") (.bytes []) = .error .invalidType ∧
    OtherName.make (.oid ⟨"1.2.3.4"⟩) (.str "d") = .error .invalidType ∧
    OtherName.beq ⟨⟨"1.2.3.4"⟩, [0]⟩ ⟨⟨"1.2.3.4"⟩, [0]⟩ = true :=
  ⟨c9_othername_payload_and_eq.1 ⟨"1.2.3.4"⟩ [0, 255],
   c9_othername_payload_and_eq.2.1 _ _ (fun _ h => nomatch h),
   c9_othername_payload_and_eq.2.2.1 ⟨"1.2.3.4"⟩ _ (fun _ h => nomatch h),
   (c9_othername_payload_and_eq.2.2.2 _ _).mpr ⟨rfl, rfl⟩⟩

/-- C6 counterexample: on the input "https://café.com:0/path", whose parsed
port is the present value 0 (mirroring urlparse), the stored encoded form is
b"https://xn--caf-dma.com/path": the truthiness test on the port drops a
port of 0 instead of reattaching ":0" as the claim requires. -/
theorem c6_counterexample :
    UniformResourceIdentifier.make urlparseStub0 idnaEncodeStub
        (.str "https://café.com:0/path") =
      .ok ⟨"https://café.com:0/path", asciiBytes "https://xn--caf-dma.com/path"⟩ ∧
    (urlparseStub0 "https://café.com:0/path").port = some 0 ∧
    asciiBytes "https://xn--caf-dma.com/path" ≠
      asciiBytes "https://xn--caf-dma.com:0/path" :=
  ⟨rfl, rfl, by decide⟩

/-- C6 (amended): with no host the netloc is empty; with a host and no port,
or a port equal to 0 (which the truthiness test treats as absent), the
netloc is the idna-encoded host alone; with a host and a nonzero port the
netloc is the encoded host followed by ":" and the port digits, the port
itself never being idna-encoded; e.g. "https://café.com:8443/path" stores
b"https://xn--caf-dma.com:8443/path". -/
theorem c6_uri_netloc_encoding :
    (∀ (enc : String → Option Bytes) (p : ParsedURI),
      (p.hostname = none ∨ p.hostname = some "") → uriNetloc enc p = some "") ∧
    (∀ (enc : String → Option Bytes) (p : ParsedURI) (h : String) (hb : Bytes) (hs : String),
      p.hostname = some h → h ≠ "" → p.port = none →
      enc h = some hb → asciiDecode hb = some hs →
      uriNetloc enc p = some hs) ∧
    (∀ (enc : String → Option Bytes) (p : ParsedURI) (h : String) (hb : Bytes) (hs : String),
      p.hostname = some h → h ≠ "" → p.port = some 0 →
      enc h = some hb → asciiDecode hb = some hs →
      uriNetloc enc p = some hs) ∧
    (∀ (enc : String → Option Bytes) (p : ParsedURI) (h : String) (hb : Bytes)
        (hs : String) (pt : Nat),
      p.hostname = some h → h ≠ "" → p.port = some pt → pt ≠ 0 →
      enc h = some hb → asciiDecode hb = some hs →
      (toString pt).data.all (fun c => c.toNat < 128) = true →
      uriNetloc enc p = some (hs ++ (":" ++ toString pt))) ∧
    (∀ (up : String → ParsedURI) (enc : String → Option Bytes),
      up "https://café.com:8443/path" =
        ⟨"https", some "café.com", some 8443, "/path", "", "", ""⟩ →
      enc "café.com" = some (asciiBytes "xn--caf-dma.com") →
      UniformResourceIdentifier.make up enc (.str "https://café.com:8443/path") =
        .ok ⟨"https://café.com:8443/path", asciiBytes "https://xn--caf-dma.com:8443/path"⟩) := by
  refine ⟨fun enc p hp => ?_, fun enc p h hb hs hh hne hpt he hd => ?_,
    fun enc p h hb hs hh hne hpt he hd => ?_,
    fun enc p h hb hs pt hh hne hpt hnz he hd hdig => ?_, fun up enc hup henc => ?_⟩
  · rcases hp with hp | hp <;> simp [uriNetloc, hp]
  · simp [uriNetloc, hh, hne, hpt, he, hd]
  · simp [uriNetloc, hh, hne, hpt, he, hd]
  · have hcolon : asciiDecode (asciiBytes (":" ++ toString pt)) = some (":" ++ toString pt) := by
      apply asciiDecode_asciiBytes
      rw [String.data_append, List.all_append]
      rw [hdig]
      rfl
    have happ := asciiDecode_append hb (asciiBytes (":" ++ toString pt)) hs
      (":" ++ toString pt) hd hcolon
    simp [uriNetloc, hh, hne, hpt, hnz, he, happ]
  · have hn : uriNetloc enc ⟨"https", some "café.com", some 8443, "/path", "", "", ""⟩ =
        some "xn--caf-dma.com:8443" := by
      simp only [uriNetloc]
      rw [if_neg (by decide), henc]
      rfl
    simp only [UniformResourceIdentifier.make, hup, hn]
    rfl

/-- C6 witness: the four netloc cases and the concrete 8443 example
evaluated on the concrete stand-ins. -/
theorem c6_witness :
    uriNetloc idnaEncodeStub ⟨"https", none, none, "", "", "", ""⟩ = some "" ∧
    uriNetloc idnaEncodeStub ⟨"https", some "example.com", none, "/", "", "", ""⟩ =
      some "example.com" ∧
    uriNetloc idnaEncodeStub ⟨"https", some "example.com", some 0, "/", "", "", ""⟩ =
      some "example.com" ∧
    uriNetloc idnaEncodeStub ⟨"https", some "café.com", some 8443, "/path", "", "", ""⟩ =
      some ("xn--caf-dma.com" ++ (":" ++ toString (8443 : Nat))) ∧
    UniformResourceIdentifier.make urlparseStub8443 idnaEncodeStub
        (.str "https://café.com:8443/path") =
      .ok ⟨"https://café.com:8443/path", asciiBytes "https://xn--caf-dma.com:8443/path"⟩ :=
  ⟨c6_uri_netloc_encoding.1 idnaEncodeStub _ (Or.inl rfl),
   c6_uri_netloc_encoding.2.1 idnaEncodeStub _ "example.com" (asciiBytes "example.com")
      "example.com" rfl (by decide) rfl rfl rfl,
   c6_uri_netloc_encoding.2.2.1 idnaEncodeStub _ "example.com" (asciiBytes "example.com")
      "example.com" rfl (by decide) rfl rfl rfl,
   c6_uri_netloc_encoding.2.2.2.1 idnaEncodeStub _ "café.com"
      (asciiBytes "xn--caf-dma.com") "xn--caf-dma.com" 8443 rfl (by decide) rfl
      (by decide) rfl rfl rfl,
   c6_uri_netloc_encoding.2.2.2.2 urlparseStub8443 idnaEncodeStub rfl rfl⟩

end X509
